import Mathlib

/-!
Shallow embedding of `src/preparer/src/main.rs` from the movieshare repository:
a transcoding tool that builds a multi-branch GStreamer pipeline (video bitrate
ladder, audio chain, dynamically discovered subtitle branches) and supervises it
to completion.

Rust string slices are modelled as `List Char`, `str::starts_with` as
`List.isPrefixOf`.  Fallible engine operations (element construction, pad
linking) are modelled by boolean success flags supplied by an environment
record; an `unwrap`/`expect` on a failed operation becomes the `panicked`
outcome of the callback.  `u32` arithmetic is `Nat` reduced modulo `2 ^ 32`.
-/

namespace Preparer

/-- A media-type structure name, as in `caps.structure(0).name()`. -/
abbrev StrName := List Char

/-- The literal "video/" tested by `name.starts_with` (main.rs:300). -/
def videoPre : StrName := ['v', 'i', 'd', 'e', 'o', '/']

/-- The literal "audio/" tested by `name.starts_with` (main.rs:307). -/
def audioPre : StrName := ['a', 'u', 'd', 'i', 'o', '/']

/-- The literal "text/" tested by `name.starts_with` (main.rs:314). -/
def textPre : StrName := ['t', 'e', 'x', 't', '/']

/-- The literal "subtitle/" tested by `name.starts_with` (main.rs:314). -/
def subtitlePre : StrName := ['s', 'u', 'b', 't', 'i', 't', 'l', 'e', '/']

/-- Outcome of classifying a discovered stream port. -/
inductive StreamKind
  | video
  | audio
  | subtitle
  | ignored
deriving DecidableEq

/-- The classification chain of the `connect_pad_added` closure
(main.rs:300-314): the ordered `starts_with` tests on the first structure
name of the pad caps. -/
def classify (name : StrName) : StreamKind :=
  if videoPre.isPrefixOf name then .video
  else if audioPre.isPrefixOf name then .audio
  else if textPre.isPrefixOf name || subtitlePre.isPrefixOf name then .subtitle
  else .ignored

/-- `u32` wrap-around semantics for Rust release-mode arithmetic. -/
def u32 (n : Nat) : Nat := n % 2 ^ 32

/-- The properties set on the `svtav1enc` encoder element
(main.rs:117-121). -/
structure EncoderCfg where
  preset : Nat
  target_bitrate : Nat
  intra_period_length : Nat
deriving DecidableEq

/-- One video ladder rung.  The queues/scaler/converter stages carry no
configuration the spec claims talk about; the encoder configuration does. -/
structure EncodingBranch where
  encoder : EncoderCfg
deriving DecidableEq

/-- `EncodingBranch::new` (main.rs:95-126): converts Mbps to kbps with a
`u32` multiply and stores preset and keyframe interval on the encoder. -/
def EncodingBranch.new (bitrate_mbps preset keyframe_interval : Nat) : EncodingBranch :=
  let bitrate_kbps := u32 (bitrate_mbps * 1000)
  { encoder := { preset := preset, target_bitrate := bitrate_kbps,
                 intra_period_length := keyframe_interval } }

/-- Elements of one encoding branch, in `EncodingBranch` field order
(main.rs:8-18). -/
inductive VElem
  | queue1
  | videoscale
  | capsfilter
  | videoconvert
  | queue2
  | encoder
  | queue3
  | av1parse
  | queue4
deriving DecidableEq

/-- A link endpoint in the static video topology: the shared tee, the shared
dashsink, or an element of the branch with index `branchIdx`. -/
inductive Endpoint
  | tee
  | dashsink
  | branchElem (branchIdx : Nat) (e : VElem)
deriving DecidableEq

/-- The links made by `EncodingBranch::link` (main.rs:143-167), in program
order, for the branch with index `i`: tee into queue1, the internal chain,
and finally queue4 into the dashsink. -/
def EncodingBranch.links (i : Nat) : List (Endpoint × Endpoint) :=
  [(.tee, .branchElem i .queue1),
   (.branchElem i .queue1, .branchElem i .videoscale),
   (.branchElem i .videoscale, .branchElem i .capsfilter),
   (.branchElem i .capsfilter, .branchElem i .videoconvert),
   (.branchElem i .videoconvert, .branchElem i .queue2),
   (.branchElem i .queue2, .branchElem i .encoder),
   (.branchElem i .encoder, .branchElem i .queue3),
   (.branchElem i .queue3, .branchElem i .av1parse),
   (.branchElem i .av1parse, .branchElem i .queue4),
   (.branchElem i .queue4, .dashsink)]

/-- The `for bitrate in bitrates` loop of `main` (main.rs:262-269): create a
branch per ladder entry, link it, collect the branches; `i` is the running
branch index used to tell the per-branch elements apart. -/
def buildLoop (preset keyframe : Nat) (i : Nat) :
    List Nat → List EncodingBranch × List (Endpoint × Endpoint)
  | [] => ([], [])
  | b :: bs =>
    let branch := EncodingBranch.new b preset keyframe
    let ls := EncodingBranch.links i
    let rest := buildLoop preset keyframe (i + 1) bs
    (branch :: rest.1, ls ++ rest.2)

/-- The fixed ladder `vec![6, 2]` of `main` (main.rs:190). -/
def mainBitrates : List Nat := [6, 2]

/-- `encoder_preset = 8u32` (main.rs:191). -/
def mainEncoderPreset : Nat := 8

/-- `target_duration = 4u32` seconds (main.rs:192). -/
def mainTargetDuration : Nat := 4

/-- `fps = 30u32` (main.rs:196). -/
def mainFps : Nat := 30

/-- `keyframe_interval = fps * target_duration` (main.rs:197), a `u32`
multiply. -/
def mainKeyframeInterval : Nat := u32 (mainFps * mainTargetDuration)

/-- Elements touched by `SubtitleBranch::link` (main.rs:65-91): the upstream
tee passed as argument, the branch fields, and the two locally created
elements. -/
inductive SubElem
  | teeArg
  | queue
  | textOverlay
  | subtitleTee
  | pngQueue
  | pngEncoder
  | pngSink
  | webvttQueue
  | webvttSink
deriving DecidableEq

/-- Success flags for each fallible operation of `SubtitleBranch::link`, in
program order. -/
structure SubLinkEnv where
  teeToQueue : Bool
  queueToOverlay : Bool
  mkSubtitleTee : Bool
  overlayToTee : Bool
  mkPngQueue : Bool
  teeToPngQueue : Bool
  pngQueueToEnc : Bool
  encToSink : Bool
  mkWebvttQueue : Bool
  teeToWebvttQueue : Bool
deriving DecidableEq

/-- The environment in which every engine operation succeeds. -/
def fullSubLinkEnv : SubLinkEnv :=
  ⟨true, true, true, true, true, true, true, true, true, true⟩

/-- A fallible element-construction step (`ElementFactory::make(..).build()?`). -/
def elemStep (ok : Bool) (what : String) : Except String Unit :=
  if ok then .ok () else .error what

/-- A fallible `link` step (`a.link(&b)?`): on success the link is appended
to the accumulated list of established links. -/
def linkStep (ok : Bool) (a b : SubElem) (acc : List (SubElem × SubElem)) :
    Except String (List (SubElem × SubElem)) :=
  if ok then .ok (acc ++ [(a, b)]) else .error "failed to link subtitle elements"

/-- `SubtitleBranch::link` (main.rs:65-91), step for step: tee to queue,
queue to textoverlay, make the internal tee, fan out to the PNG path, make
the WebVTT queue and link only the queue; the `webvtt_sink` link is commented
out in the source (main.rs:85) and never happens. -/
def SubtitleBranch.link (env : SubLinkEnv) : Except String (List (SubElem × SubElem)) := do
  let l1 ← linkStep env.teeToQueue .teeArg .queue []
  let l2 ← linkStep env.queueToOverlay .queue .textOverlay l1
  let _ ← elemStep env.mkSubtitleTee "failed to construct subtitle tee"
  let l3 ← linkStep env.overlayToTee .textOverlay .subtitleTee l2
  let _ ← elemStep env.mkPngQueue "failed to construct png queue"
  let l4 ← linkStep env.teeToPngQueue .subtitleTee .pngQueue l3
  let l5 ← linkStep env.pngQueueToEnc .pngQueue .pngEncoder l4
  let l6 ← linkStep env.encToSink .pngEncoder .pngSink l5
  let _ ← elemStep env.mkWebvttQueue "failed to construct webvtt queue"
  let l7 ← linkStep env.teeToWebvttQueue .subtitleTee .webvttQueue l6
  return l7

/-- Liveness of the three weak references taken before installing the
callback (main.rs:272-275), as seen by one invocation upgrading them
(main.rs:280-293). -/
structure Alive where
  tee : Bool
  audioQueue1 : Bool
  pipeline : Bool
deriving DecidableEq

/-- The mutable graph state the dynamic router touches: the two static sink
pads it may link, the subtitle track counter, and the number of subtitle
sub-graphs spliced in. -/
structure Graph where
  teeSinkLinked : Bool
  audioSinkLinked : Bool
  subtitleTrackCounter : Nat
  subtitleSubgraphs : Nat
deriving DecidableEq

/-- The graph as built by `main` before any pad-added callback fires: both
dynamic sink pads unlinked, counter zero, no subtitle sub-graphs. -/
def initialGraph : Graph :=
  { teeSinkLinked := false, audioSinkLinked := false,
    subtitleTrackCounter := 0, subtitleSubgraphs := 0 }

/-- A successful link performed by one callback invocation. -/
inductive LinkAttempt
  | videoToTee
  | audioToQueue
  | subtitleSetup (track_id : Nat)
deriving DecidableEq

/-- Success flags for the fallible operations of one callback invocation. -/
structure LinkEnv where
  videoLink : Bool
  audioLink : Bool
  mkSubtitleTee : Bool
  addSubtitleTee : Bool
  srcToSubtitleTee : Bool
  subtitleNew : Bool
  subtitleAdd : Bool
  sub : SubLinkEnv
deriving DecidableEq

/-- The environment in which every engine operation of a callback succeeds. -/
def fullLinkEnv : LinkEnv :=
  ⟨true, true, true, true, true, true, true, fullSubLinkEnv⟩

def capsUnwrapMsg : String := "called unwrap on None: src_pad.current_caps()"

def structureUnwrapMsg : String := "called unwrap on None: caps.structure(0)"

def videoLinkMsg : String := "Failed to link decodebin video to tee"

def audioLinkMsg : String := "Failed to link decodebin audio to queue"

/-- How one callback invocation ends: an early return because a weak
reference was gone, a panic from a failed `unwrap`/`expect`, or normal
completion with the updated graph and the links performed. -/
inductive CallbackResult
  | earlyReturn (g : Graph)
  | panicked (msg : String)
  | done (g : Graph) (attempts : List LinkAttempt)
deriving DecidableEq

/-- One invocation of the `connect_pad_added` closure (main.rs:279-334).
`caps` is `src_pad.current_caps()` as a list of structure names (`none`
models absent caps; the head is `caps.structure(0)`).  The three weak
upgrades come first; then the unwraps on caps; then the classification
chain.  Video/audio link only when the static sink pad is unlinked; the
subtitle arm bumps the atomic counter, builds a tee plus a
`SubtitleBranch`, and panics on any failing step. -/
def padAdded (a : Alive) (g : Graph) (caps : Option (List StrName)) (env : LinkEnv) :
    CallbackResult :=
  if a.tee = false then .earlyReturn g
  else if a.audioQueue1 = false then .earlyReturn g
  else if a.pipeline = false then .earlyReturn g
  else
    match caps with
    | none => .panicked capsUnwrapMsg
    | some structs =>
      match structs.head? with
      | none => .panicked structureUnwrapMsg
      | some name =>
        if videoPre.isPrefixOf name then
          if g.teeSinkLinked = false then
            if env.videoLink then .done { g with teeSinkLinked := true } [.videoToTee]
            else .panicked videoLinkMsg
          else .done g []
        else if audioPre.isPrefixOf name then
          if g.audioSinkLinked = false then
            if env.audioLink then .done { g with audioSinkLinked := true } [.audioToQueue]
            else .panicked audioLinkMsg
          else .done g []
        else if textPre.isPrefixOf name || subtitlePre.isPrefixOf name then
          let track_id := g.subtitleTrackCounter
          let g1 := { g with subtitleTrackCounter := g.subtitleTrackCounter + 1 }
          if env.mkSubtitleTee = false then .panicked "failed to construct subtitle tee"
          else if env.addSubtitleTee = false then .panicked "failed to add subtitle tee to pipeline"
          else if env.srcToSubtitleTee = false then .panicked "failed to link src pad to subtitle tee"
          else if env.subtitleNew = false then .panicked "SubtitleBranch::new failed"
          else if env.subtitleAdd = false then .panicked "failed to add subtitle branch to pipeline"
          else
            match SubtitleBranch.link env.sub with
            | .error e => .panicked e
            | .ok _ =>
              .done { g1 with subtitleSubgraphs := g1.subtitleSubgraphs + 1 }
                [.subtitleSetup track_id]
        else .done g []

/-- One observed callback invocation: the liveness of the weak references,
the caps of the discovered pad, and the outcome flags of engine operations. -/
structure CallbackInput where
  alive : Alive
  caps : Option (List StrName)
  env : LinkEnv

/-- A whole run of pad-added callbacks against the shared graph state, in
their (linearised) execution order.  An early return leaves the graph as it
was; a panic aborts the process, so no later callback runs. -/
def runCallbacks (g : Graph) : List CallbackInput → Graph × List LinkAttempt
  | [] => (g, [])
  | i :: rest =>
    match padAdded i.alive g i.caps i.env with
    | .earlyReturn g2 => runCallbacks g2 rest
    | .panicked _ => (g, [])
    | .done g2 atts =>
      let r := runCallbacks g2 rest
      (r.1, atts ++ r.2)

/-- Occurrences of one attempt kind in the log of a run. -/
def countAttempt (t : LinkAttempt) : List LinkAttempt → Nat
  | [] => 0
  | a :: rest => (if a = t then 1 else 0) + countAttempt t rest

/-- The subtitle track ids handed out during a run, in order. -/
def subtitleIds : List LinkAttempt → List Nat
  | [] => []
  | .subtitleSetup t :: rest => t :: subtitleIds rest
  | .videoToTee :: rest => subtitleIds rest
  | .audioToQueue :: rest => subtitleIds rest

/-- Links whose target is `t`. -/
def countLinksInto (t : Endpoint) : List (Endpoint × Endpoint) → Nat
  | [] => 0
  | l :: rest => (if l.2 = t then 1 else 0) + countLinksInto t rest

/-- `AtomicUsize::fetch_add(1, SeqCst)` (main.rs:316): returns the old value
and increments. -/
def fetch_add (c : Nat) : Nat × Nat := (c, c + 1)

/-- Any interleaving of concurrent subtitle discovery callbacks linearises
to a sequence of atomic `fetch_add` steps; `threads` is the linearisation
order (arbitrary thread tags), and each entry of the result pairs a thread
with the track id its `fetch_add` returned. -/
def runFetchAdds (threads : List Nat) (c : Nat) : List (Nat × Nat) :=
  match threads with
  | [] => []
  | t :: ts =>
    let r := fetch_add c
    (t, r.1) :: runFetchAdds ts r.2

/-- The diagnostic carried by an error bus message, as printed by `main`
(main.rs:354-359): source stage path, message, debug detail. -/
structure ErrorInfo where
  src : Option String
  message : String
  debug : Option String
deriving DecidableEq

/-- Pipeline states relevant to the supervisor. -/
inductive GstState
  | null
  | ready
  | paused
  | playing
deriving DecidableEq

/-- Bus messages as matched by the supervisor loop (main.rs:348-370). -/
inductive BusMessage
  | eos
  | error (info : ErrorInfo)
  | stateChanged (srcIsPipeline : Bool) (current : GstState)
  | other
deriving DecidableEq

/-- How the supervised run ended. -/
inductive RunOutcome
  | completed
  | failed (info : ErrorInfo)
deriving DecidableEq

/-- The `for msg in bus.iter_timed(..)` loop (main.rs:345-371): `Eos`
breaks as success, `Error` breaks carrying the diagnostic, `StateChanged`
and all other messages are consumed without leaving the loop. -/
def busLoop : List BusMessage → Option RunOutcome
  | [] => none
  | .eos :: _ => some .completed
  | .error i :: _ => some (.failed i)
  | .stateChanged _ _ :: rest => busLoop rest
  | .other :: rest => busLoop rest

/-- The supervisor tail of `main` (main.rs:343-376): run the bus loop, then
unconditionally `pipeline.set_state(Null)` (main.rs:374), whatever ended
the loop. -/
def supervise (msgs : List BusMessage) : Option RunOutcome × GstState :=
  (busLoop msgs, .null)

/-! ### Helper lemmas -/

/-- Two nonempty patterns with different heads cannot both be list-prefixes
of the same string. -/
lemma isPrefixOf_false_of_head_ne {a b : Char} (as bs s : List Char) (hab : a ≠ b)
    (h : (a :: as).isPrefixOf s = true) : (b :: bs).isPrefixOf s = false := by
  cases s with
  | nil => simp [List.isPrefixOf] at h
  | cons c t =>
    simp only [List.isPrefixOf, Bool.and_eq_true, beq_iff_eq] at h
    have hba : (b == c) = false := by
      rw [beq_eq_false_iff_ne]
      intro hbc
      exact hab (h.1.trans hbc.symm)
    simp [List.isPrefixOf, hba]

lemma not_video_of_audio {s : StrName} (h : audioPre.isPrefixOf s = true) :
    videoPre.isPrefixOf s = false := by
  have h2 : (['a', 'u', 'd', 'i', 'o', '/'] : List Char).isPrefixOf s = true := h
  exact isPrefixOf_false_of_head_ne _ _ s (by decide) h2

lemma not_video_of_text {s : StrName} (h : textPre.isPrefixOf s = true) :
    videoPre.isPrefixOf s = false := by
  have h2 : (['t', 'e', 'x', 't', '/'] : List Char).isPrefixOf s = true := h
  exact isPrefixOf_false_of_head_ne _ _ s (by decide) h2

lemma not_audio_of_text {s : StrName} (h : textPre.isPrefixOf s = true) :
    audioPre.isPrefixOf s = false := by
  have h2 : (['t', 'e', 'x', 't', '/'] : List Char).isPrefixOf s = true := h
  exact isPrefixOf_false_of_head_ne _ _ s (by decide) h2

lemma not_video_of_subtitle {s : StrName} (h : subtitlePre.isPrefixOf s = true) :
    videoPre.isPrefixOf s = false := by
  have h2 : (['s', 'u', 'b', 't', 'i', 't', 'l', 'e', '/'] : List Char).isPrefixOf s = true := h
  exact isPrefixOf_false_of_head_ne _ _ s (by decide) h2

lemma not_audio_of_subtitle {s : StrName} (h : subtitlePre.isPrefixOf s = true) :
    audioPre.isPrefixOf s = false := by
  have h2 : (['s', 'u', 'b', 't', 'i', 't', 'l', 'e', '/'] : List Char).isPrefixOf s = true := h
  exact isPrefixOf_false_of_head_ne _ _ s (by decide) h2

lemma countAttempt_append (t : LinkAttempt) (l1 l2 : List LinkAttempt) :
    countAttempt t (l1 ++ l2) = countAttempt t l1 + countAttempt t l2 := by
  induction l1 with
  | nil => simp [countAttempt]
  | cons x xs ih => simp [countAttempt, ih]; omega

lemma subtitleIds_append (l1 l2 : List LinkAttempt) :
    subtitleIds (l1 ++ l2) = subtitleIds l1 ++ subtitleIds l2 := by
  induction l1 with
  | nil => simp [subtitleIds]
  | cons x xs ih => cases x <;> simp [subtitleIds, ih]

lemma countLinksInto_append (t : Endpoint) (l1 l2 : List (Endpoint × Endpoint)) :
    countLinksInto t (l1 ++ l2) = countLinksInto t l1 + countLinksInto t l2 := by
  induction l1 with
  | nil => simp [countLinksInto]
  | cons x xs ih => simp [countLinksInto, ih]; omega

/-- Every outcome of one callback invocation: an early return handing back
the untouched graph, a panic, or completion; a completed invocation links the
video (resp. audio) static sink pad at most once and only from the unlinked
state, and either hands out no subtitle id leaving the counter alone, or
hands out exactly the old counter value and bumps the counter by one. -/
lemma padAdded_spec (a : Alive) (g : Graph) (caps : Option (List StrName)) (e : LinkEnv) :
    padAdded a g caps e = .earlyReturn g ∨
    (∃ m, padAdded a g caps e = .panicked m) ∨
    (∃ g2 atts, padAdded a g caps e = .done g2 atts ∧
      (countAttempt .videoToTee atts + (if g.teeSinkLinked = true then 1 else 0) ≤
        (if g2.teeSinkLinked = true then 1 else 0)) ∧
      (countAttempt .audioToQueue atts + (if g.audioSinkLinked = true then 1 else 0) ≤
        (if g2.audioSinkLinked = true then 1 else 0)) ∧
      ((subtitleIds atts = [] ∧ g2.subtitleTrackCounter = g.subtitleTrackCounter) ∨
       (subtitleIds atts = [g.subtitleTrackCounter] ∧
        g2.subtitleTrackCounter = g.subtitleTrackCounter + 1))) := by
  obtain ⟨t, q, p⟩ := a
  cases t
  · exact Or.inl (by simp [padAdded])
  cases q
  · exact Or.inl (by simp [padAdded])
  cases p
  · exact Or.inl (by simp [padAdded])
  cases caps with
  | none => exact Or.inr (Or.inl ⟨capsUnwrapMsg, by simp [padAdded]⟩)
  | some structs =>
  cases structs with
  | nil => exact Or.inr (Or.inl ⟨structureUnwrapMsg, by simp [padAdded]⟩)
  | cons name restS =>
  by_cases hv : videoPre.isPrefixOf name = true
  · by_cases hl : g.teeSinkLinked = true
    · refine Or.inr (Or.inr ⟨g, [], by simp [padAdded, hv, hl], ?_, ?_, Or.inl ⟨rfl, rfl⟩⟩)
      · simp [countAttempt, hl]
      · simp [countAttempt]
    · simp only [Bool.not_eq_true] at hl
      cases hev : e.videoLink
      · exact Or.inr (Or.inl ⟨videoLinkMsg, by simp [padAdded, hv, hl, hev]⟩)
      · refine Or.inr (Or.inr ⟨{ g with teeSinkLinked := true }, [.videoToTee],
          by simp [padAdded, hv, hl, hev], ?_, ?_, Or.inl ⟨rfl, rfl⟩⟩)
        · simp [countAttempt, hl]
        · simp [countAttempt]
  · simp only [Bool.not_eq_true] at hv
    by_cases hau : audioPre.isPrefixOf name = true
    · by_cases hl : g.audioSinkLinked = true
      · refine Or.inr (Or.inr ⟨g, [], by simp [padAdded, hv, hau, hl], ?_, ?_,
          Or.inl ⟨rfl, rfl⟩⟩)
        · simp [countAttempt]
        · simp [countAttempt, hl]
      · simp only [Bool.not_eq_true] at hl
        cases hev : e.audioLink
        · exact Or.inr (Or.inl ⟨audioLinkMsg, by simp [padAdded, hv, hau, hl, hev]⟩)
        · refine Or.inr (Or.inr ⟨{ g with audioSinkLinked := true }, [.audioToQueue],
            by simp [padAdded, hv, hau, hl, hev], ?_, ?_, Or.inl ⟨rfl, rfl⟩⟩)
          · simp [countAttempt]
          · simp [countAttempt, hl]
    · simp only [Bool.not_eq_true] at hau
      by_cases hts : (textPre.isPrefixOf name || subtitlePre.isPrefixOf name) = true
      · cases hmk : e.mkSubtitleTee
        · exact Or.inr (Or.inl ⟨"failed to construct subtitle tee", by simp [padAdded, hv, hau, hts, hmk]⟩)
        cases hadd : e.addSubtitleTee
        · exact Or.inr (Or.inl ⟨"failed to add subtitle tee to pipeline", by simp [padAdded, hv, hau, hts, hmk, hadd]⟩)
        cases hsrc : e.srcToSubtitleTee
        · exact Or.inr (Or.inl ⟨"failed to link src pad to subtitle tee", by simp [padAdded, hv, hau, hts, hmk, hadd, hsrc]⟩)
        cases hnew : e.subtitleNew
        · exact Or.inr (Or.inl ⟨"SubtitleBranch::new failed", by simp [padAdded, hv, hau, hts, hmk, hadd, hsrc, hnew]⟩)
        cases hba : e.subtitleAdd
        · exact Or.inr (Or.inl ⟨"failed to add subtitle branch to pipeline", by
            simp [padAdded, hv, hau, hts, hmk, hadd, hsrc, hnew, hba]⟩)
        cases hsub : SubtitleBranch.link e.sub with
        | error m =>
          exact Or.inr (Or.inl ⟨m, by
            simp [padAdded, hv, hau, hts, hmk, hadd, hsrc, hnew, hba, hsub]⟩)
        | ok links =>
          refine Or.inr (Or.inr ⟨{ g with
              subtitleTrackCounter := g.subtitleTrackCounter + 1,
              subtitleSubgraphs := g.subtitleSubgraphs + 1 },
            [.subtitleSetup g.subtitleTrackCounter],
            by simp [padAdded, hv, hau, hts, hmk, hadd, hsrc, hnew, hba, hsub], ?_, ?_,
            Or.inr ⟨rfl, rfl⟩⟩)
          · simp [countAttempt]
          · simp [countAttempt]
      · simp only [Bool.not_eq_true] at hts
        refine Or.inr (Or.inr ⟨g, [], by simp [padAdded, hv, hau, hts], ?_, ?_,
          Or.inl ⟨rfl, rfl⟩⟩)
        · simp [countAttempt]
        · simp [countAttempt]

/-- An early return never mutates the graph. -/
lemma padAdded_earlyReturn_eq (a : Alive) (g : Graph) (caps : Option (List StrName))
    (e : LinkEnv) (g2 : Graph) (h : padAdded a g caps e = .earlyReturn g2) : g2 = g := by
  rcases padAdded_spec a g caps e with hs | ⟨m, hs⟩ | ⟨g3, atts3, hs, _⟩ <;> rw [hs] at h
  · exact (CallbackResult.earlyReturn.inj h).symm
  · cases h
  · cases h

/-- What one completed callback invocation can do to the graph. -/
lemma padAdded_done_spec (a : Alive) (g : Graph) (caps : Option (List StrName))
    (e : LinkEnv) (g2 : Graph) (atts : List LinkAttempt)
    (h : padAdded a g caps e = .done g2 atts) :
    (countAttempt .videoToTee atts + (if g.teeSinkLinked = true then 1 else 0) ≤
      (if g2.teeSinkLinked = true then 1 else 0)) ∧
    (countAttempt .audioToQueue atts + (if g.audioSinkLinked = true then 1 else 0) ≤
      (if g2.audioSinkLinked = true then 1 else 0)) ∧
    ((subtitleIds atts = [] ∧ g2.subtitleTrackCounter = g.subtitleTrackCounter) ∨
     (subtitleIds atts = [g.subtitleTrackCounter] ∧
      g2.subtitleTrackCounter = g.subtitleTrackCounter + 1)) := by
  rcases padAdded_spec a g caps e with hs | ⟨m, hs⟩ | ⟨g3, atts3, hs, hP⟩ <;> rw [hs] at h
  · cases h
  · cases h
  · obtain ⟨hg, hatt⟩ := CallbackResult.done.inj h
    subst hg
    subst hatt
    exact hP

/-- Over any whole run, the video sink pad receives at most one link, counting
a pre-linked pad as one. -/
lemma run_video_count (inputs : List CallbackInput) (g : Graph) :
    countAttempt .videoToTee (runCallbacks g inputs).2 +
      (if g.teeSinkLinked = true then 1 else 0) ≤ 1 := by
  induction inputs generalizing g with
  | nil =>
    cases hgt : g.teeSinkLinked <;> simp [runCallbacks, countAttempt, hgt]
  | cons i rest ih =>
    cases hp : padAdded i.alive g i.caps i.env with
    | earlyReturn g2 =>
      have hg := padAdded_earlyReturn_eq _ _ _ _ _ hp
      subst hg
      simpa [runCallbacks, hp] using ih g2
    | panicked m =>
      cases hgt : g.teeSinkLinked <;> simp [runCallbacks, hp, countAttempt, hgt]
    | done g2 atts =>
      have hstep := (padAdded_done_spec _ _ _ _ _ _ hp).1
      have hrun := ih g2
      simp only [runCallbacks, hp, countAttempt_append]
      omega

/-- Over any whole run, the audio sink pad receives at most one link, counting
a pre-linked pad as one. -/
lemma run_audio_count (inputs : List CallbackInput) (g : Graph) :
    countAttempt .audioToQueue (runCallbacks g inputs).2 +
      (if g.audioSinkLinked = true then 1 else 0) ≤ 1 := by
  induction inputs generalizing g with
  | nil =>
    cases hgt : g.audioSinkLinked <;> simp [runCallbacks, countAttempt, hgt]
  | cons i rest ih =>
    cases hp : padAdded i.alive g i.caps i.env with
    | earlyReturn g2 =>
      have hg := padAdded_earlyReturn_eq _ _ _ _ _ hp
      subst hg
      simpa [runCallbacks, hp] using ih g2
    | panicked m =>
      cases hgt : g.audioSinkLinked <;> simp [runCallbacks, hp, countAttempt, hgt]
    | done g2 atts =>
      have hstep := (padAdded_done_spec _ _ _ _ _ _ hp).2.1
      have hrun := ih g2
      simp only [runCallbacks, hp, countAttempt_append]
      omega

/-- The subtitle ids a run hands out form a contiguous block starting at the
counter value the run began with. -/
lemma run_subtitle_ids (inputs : List CallbackInput) (g : Graph) :
    ∃ k, subtitleIds (runCallbacks g inputs).2 =
      List.range' g.subtitleTrackCounter k := by
  induction inputs generalizing g with
  | nil => exact ⟨0, by simp [runCallbacks, subtitleIds]⟩
  | cons i rest ih =>
    cases hp : padAdded i.alive g i.caps i.env with
    | earlyReturn g2 =>
      have hg := padAdded_earlyReturn_eq _ _ _ _ _ hp
      subst hg
      obtain ⟨k, hk⟩ := ih g2
      exact ⟨k, by simpa [runCallbacks, hp] using hk⟩
    | panicked m => exact ⟨0, by simp [runCallbacks, hp, subtitleIds]⟩
    | done g2 atts =>
      obtain ⟨k, hk⟩ := ih g2
      rcases (padAdded_done_spec _ _ _ _ _ _ hp).2.2 with ⟨hids, hc⟩ | ⟨hids, hc⟩
      · refine ⟨k, ?_⟩
        simp only [runCallbacks, hp, subtitleIds_append, hids, List.nil_append]
        rw [hk, hc]
      · refine ⟨k + 1, ?_⟩
        simp only [runCallbacks, hp, subtitleIds_append, hids, List.cons_append,
          List.nil_append]
        rw [hk, hc, List.range'_succ]

/-- Per-branch dashsink link count is one. -/
lemma links_dashsink_count (i : Nat) :
    countLinksInto .dashsink (EncodingBranch.links i) = 1 := by
  simp [EncodingBranch.links, countLinksInto]

lemma buildLoop_length (preset k i : Nat) (bs : List Nat) :
    (buildLoop preset k i bs).1.length = bs.length := by
  induction bs generalizing i with
  | nil => simp [buildLoop]
  | cons b bs ih => simp [buildLoop, ih]

lemma buildLoop_dashsink (preset k i : Nat) (bs : List Nat) :
    countLinksInto .dashsink (buildLoop preset k i bs).2 = bs.length := by
  induction bs generalizing i with
  | nil => simp [buildLoop, countLinksInto]
  | cons b bs ih =>
    simp [buildLoop, countLinksInto_append, links_dashsink_count, ih]
    omega

lemma runFetchAdds_snd (ts : List Nat) (c : Nat) :
    (runFetchAdds ts c).map Prod.snd = List.range' c ts.length := by
  induction ts generalizing c with
  | nil => simp [runFetchAdds]
  | cons t ts ih => simp [runFetchAdds, fetch_add, ih, List.range'_succ]

/-! ### Claim theorems -/

/-- Claim C1: over any whole run of classification callbacks starting from
the freshly built graph, the video tee sink pad and the audio queue sink pad
each transition from unlinked to linked at most once; a callback that fires
for a kind whose sink pad is already linked performs no link attempt and
returns the graph unchanged. -/
theorem c1_sink_pad_linked_at_most_once
    (inputs : List CallbackInput) (a : Alive) (e : LinkEnv) (g : Graph)
    (name : StrName) (rest : List StrName)
    (ha : a.tee = true ∧ a.audioQueue1 = true ∧ a.pipeline = true) :
    countAttempt .videoToTee (runCallbacks initialGraph inputs).2 ≤ 1 ∧
    countAttempt .audioToQueue (runCallbacks initialGraph inputs).2 ≤ 1 ∧
    (g.teeSinkLinked = true → videoPre.isPrefixOf name = true →
      padAdded a g (some (name :: rest)) e = .done g []) ∧
    (g.audioSinkLinked = true → audioPre.isPrefixOf name = true →
      padAdded a g (some (name :: rest)) e = .done g []) := by
  obtain ⟨h1, h2, h3⟩ := ha
  refine ⟨?_, ?_, ?_, ?_⟩
  · have h := run_video_count inputs initialGraph
    rw [show initialGraph.teeSinkLinked = false from rfl] at h
    simpa using h
  · have h := run_audio_count inputs initialGraph
    rw [show initialGraph.audioSinkLinked = false from rfl] at h
    simpa using h
  · intro hl hv
    simp [padAdded, h1, h2, h3, hv, hl]
  · intro hl hau
    simp [padAdded, h1, h2, h3, hau, not_video_of_audio hau, hl]

/-- Claim C1 witness: two video discoveries in a row link the tee at most
once, and a callback on an already linked tee pad is a no-op. -/
theorem c1_witness :
    countAttempt .videoToTee
      (runCallbacks initialGraph
        [⟨Alive.mk true true true, some [['v', 'i', 'd', 'e', 'o', '/', 'x']], fullLinkEnv⟩,
         ⟨Alive.mk true true true, some [['v', 'i', 'd', 'e', 'o', '/', 'x']],
           fullLinkEnv⟩]).2 ≤ 1 ∧
    padAdded (Alive.mk true true true) (Graph.mk true false 0 0)
      (some [['v', 'i', 'd', 'e', 'o', '/', 'x']]) fullLinkEnv =
      .done (Graph.mk true false 0 0) [] := by
  constructor
  · exact (c1_sink_pad_linked_at_most_once
      [⟨Alive.mk true true true, some [['v', 'i', 'd', 'e', 'o', '/', 'x']], fullLinkEnv⟩,
       ⟨Alive.mk true true true, some [['v', 'i', 'd', 'e', 'o', '/', 'x']], fullLinkEnv⟩]
      (Alive.mk true true true) fullLinkEnv initialGraph [] [] ⟨rfl, rfl, rfl⟩).1
  · exact (c1_sink_pad_linked_at_most_once [] (Alive.mk true true true) fullLinkEnv
      (Graph.mk true false 0 0) ['v', 'i', 'd', 'e', 'o', '/', 'x'] []
      ⟨rfl, rfl, rfl⟩).2.2.1 rfl (by decide)

/-- Claim C3: for a bitrate ladder of any size N, the build loop creates
exactly N encoding branches; every branch has the tee link at the head of
its link list and exactly one link into the dashsink, and the whole loop
registers exactly N dashsink links. -/
theorem c3_ladder_branch_count (bitrates : List Nat) (preset k i : Nat) :
    (buildLoop preset k 0 bitrates).1.length = bitrates.length ∧
    (EncodingBranch.links i).head? = some (.tee, .branchElem i .queue1) ∧
    countLinksInto .dashsink (EncodingBranch.links i) = 1 ∧
    countLinksInto .dashsink (buildLoop preset k 0 bitrates).2 = bitrates.length :=
  ⟨buildLoop_length preset k 0 bitrates, rfl, links_dashsink_count i,
   buildLoop_dashsink preset k 0 bitrates⟩

/-- Claim C4: subtitle track ids come from a single atomic counter starting
at 0: any linearisation of concurrent `fetch_add` calls hands out pairwise
distinct ids forming the contiguous range 0..k-1, and a whole callback run
from the fresh graph hands out exactly the ids 0..k-1 for the k subtitle
streams it sets up. -/
theorem c4_subtitle_track_ids (threads : List Nat) (inputs : List CallbackInput) :
    ((runFetchAdds threads 0).map Prod.snd = List.range threads.length) ∧
    ((runFetchAdds threads 0).map Prod.snd).Nodup ∧
    (∃ k, subtitleIds (runCallbacks initialGraph inputs).2 = List.range k) := by
  have h1 : (runFetchAdds threads 0).map Prod.snd = List.range threads.length := by
    rw [runFetchAdds_snd, List.range_eq_range']
  refine ⟨h1, ?_, ?_⟩
  · rw [h1]
    exact List.nodup_range threads.length
  · obtain ⟨k, hk⟩ := run_subtitle_ids inputs initialGraph
    refine ⟨k, ?_⟩
    rw [hk, List.range_eq_range']
    rfl

/-- Claim C2: classification of a discovered stream port is decided solely by
the media-kind prefix of the first structure name of its format descriptor:
`video/` yields Video, `audio/` yields Audio, `text/` or `subtitle/` yields
Subtitle, and anything else yields Ignored, for which the callback performs
no link and leaves the graph unchanged. -/
theorem c2_classification_by_media_kind (name : StrName) (a : Alive) (g : Graph)
    (e : LinkEnv) (rest : List StrName) :
    (videoPre.isPrefixOf name = true → classify name = .video) ∧
    (audioPre.isPrefixOf name = true → classify name = .audio) ∧
    (textPre.isPrefixOf name = true ∨ subtitlePre.isPrefixOf name = true →
      classify name = .subtitle) ∧
    (videoPre.isPrefixOf name = false → audioPre.isPrefixOf name = false →
      textPre.isPrefixOf name = false → subtitlePre.isPrefixOf name = false →
      classify name = .ignored) ∧
    (classify name = .ignored → a.tee = true → a.audioQueue1 = true → a.pipeline = true →
      padAdded a g (some (name :: rest)) e = .done g []) := by
  refine ⟨?_, ?_, ?_, ?_, ?_⟩
  · intro h
    simp [classify, h]
  · intro h
    simp [classify, h, not_video_of_audio h]
  · rintro (h | h)
    · simp [classify, h, not_video_of_text h, not_audio_of_text h]
    · simp [classify, h, not_video_of_subtitle h, not_audio_of_subtitle h]
  · intro h1 h2 h3 h4
    simp [classify, h1, h2, h3, h4]
  · intro hcl ht ha hp
    unfold classify at hcl
    split_ifs at hcl with h1 h2 h3
    have h3v : (textPre.isPrefixOf name || subtitlePre.isPrefixOf name) = false := by
      revert h3
      cases textPre.isPrefixOf name <;> cases subtitlePre.isPrefixOf name <;> simp
    simp [padAdded, ht, ha, hp, h1, h2, h3v]

/-- Claim C2 witness: concrete instances of every implication. -/
theorem c2_witness :
    classify ['v', 'i', 'd', 'e', 'o', '/', 'x'] = .video ∧
    classify ['a', 'u', 'd', 'i', 'o', '/', 'x'] = .audio ∧
    classify ['t', 'e', 'x', 't', '/', 'x'] = .subtitle ∧
    classify ['s', 'u', 'b', 't', 'i', 't', 'l', 'e', '/', 'x'] = .subtitle ∧
    classify ['f', 'o', 'o'] = .ignored ∧
    padAdded (Alive.mk true true true) initialGraph (some [['f', 'o', 'o']]) fullLinkEnv =
      .done initialGraph [] := by
  refine ⟨?_, ?_, ?_, ?_, ?_, ?_⟩
  · exact (c2_classification_by_media_kind ['v', 'i', 'd', 'e', 'o', '/', 'x']
      (Alive.mk true true true) initialGraph fullLinkEnv []).1 (by decide)
  · exact (c2_classification_by_media_kind ['a', 'u', 'd', 'i', 'o', '/', 'x']
      (Alive.mk true true true) initialGraph fullLinkEnv []).2.1 (by decide)
  · exact (c2_classification_by_media_kind ['t', 'e', 'x', 't', '/', 'x']
      (Alive.mk true true true) initialGraph fullLinkEnv []).2.2.1 (Or.inl (by decide))
  · exact (c2_classification_by_media_kind ['s', 'u', 'b', 't', 'i', 't', 'l', 'e', '/', 'x']
      (Alive.mk true true true) initialGraph fullLinkEnv []).2.2.1 (Or.inr (by decide))
  · exact (c2_classification_by_media_kind ['f', 'o', 'o']
      (Alive.mk true true true) initialGraph fullLinkEnv []).2.2.2.1
      (by decide) (by decide) (by decide) (by decide)
  · exact (c2_classification_by_media_kind ['f', 'o', 'o']
      (Alive.mk true true true) initialGraph fullLinkEnv []).2.2.2.2
      (by decide) rfl rfl rfl

/-- Claim C5: every encoding branch is configured with
`bitrate_kbps = bitrate_mbps * 1000` (modulo the `u32` width, exact whenever
the product fits) and the keyframe interval computed in `main` for the fixed
configuration (30 fps, 4 s target duration) is 120; under the fixed ladder
`[6, 2]` the built branches carry bitrates 6000 and 2000 kbps and keyframe
interval 120 each. -/
theorem c5_encoder_configuration (b preset k : Nat) (hb : b * 1000 < 2 ^ 32) :
    (EncodingBranch.new b preset k).encoder.target_bitrate = b * 1000 ∧
    mainKeyframeInterval = 120 ∧
    ((buildLoop mainEncoderPreset mainKeyframeInterval 0 mainBitrates).1.map
      (fun br => br.encoder.target_bitrate)) = [6000, 2000] ∧
    ((buildLoop mainEncoderPreset mainKeyframeInterval 0 mainBitrates).1.map
      (fun br => br.encoder.intra_period_length)) = [120, 120] := by
  refine ⟨?_, by decide, by decide, by decide⟩
  simp only [EncodingBranch.new, u32]
  omega

/-- Claim C5 witness: the 6 Mbps rung of the fixed ladder. -/
theorem c5_witness :
    6 * 1000 < 2 ^ 32 ∧ (EncodingBranch.new 6 8 120).encoder.target_bitrate = 6 * 1000 :=
  ⟨by decide, (c5_encoder_configuration 6 8 120 (by decide)).1⟩

/-- Claim C6: the supervisor loop treats exactly end-of-stream and error as
terminal — end-of-stream completes the run, an error fails it carrying the
source identity, message and debug detail, state-changed messages never
leave the loop — and after the loop the pipeline is unconditionally set to
Null whatever message list drove the run. -/
theorem c6_supervisor_terminal_events :
    (∀ rest : List BusMessage, busLoop (.eos :: rest) = some .completed) ∧
    (∀ (i : ErrorInfo) (rest : List BusMessage),
      busLoop (.error i :: rest) = some (.failed i)) ∧
    (∀ (b : Bool) (s : GstState) (rest : List BusMessage),
      busLoop (.stateChanged b s :: rest) = busLoop rest) ∧
    (∀ msgs : List BusMessage, (supervise msgs).2 = .null) :=
  ⟨fun _ => rfl, fun _ _ => rfl, fun _ _ _ => rfl, fun _ => rfl⟩

/-- Claim C7: a failing dynamic link step terminates the classification
callback abruptly (panic) instead of returning a recoverable error: a failed
video-to-tee link panics, a failed audio-to-queue link panics, any failing
step of subtitle sub-graph construction, insertion or linking panics, and a
panicking callback ends the run, so no later stream is processed. -/
theorem c7_dynamic_link_failure_fatal
    (a : Alive) (g : Graph) (e : LinkEnv) (name : StrName) (rest : List StrName)
    (i : CallbackInput) (inputs : List CallbackInput) (m : String)
    (ha : a.tee = true ∧ a.audioQueue1 = true ∧ a.pipeline = true) :
    (videoPre.isPrefixOf name = true → g.teeSinkLinked = false → e.videoLink = false →
      padAdded a g (some (name :: rest)) e = .panicked videoLinkMsg) ∧
    (audioPre.isPrefixOf name = true → g.audioSinkLinked = false → e.audioLink = false →
      padAdded a g (some (name :: rest)) e = .panicked audioLinkMsg) ∧
    (textPre.isPrefixOf name = true →
      (e.mkSubtitleTee = false ∨ e.addSubtitleTee = false ∨ e.srcToSubtitleTee = false ∨
       e.subtitleNew = false ∨ e.subtitleAdd = false ∨
       (∃ msg, SubtitleBranch.link e.sub = .error msg)) →
      ∃ pm, padAdded a g (some (name :: rest)) e = .panicked pm) ∧
    (padAdded i.alive g i.caps i.env = .panicked m →
      runCallbacks g (i :: inputs) = (g, [])) := by
  obtain ⟨h1, h2, h3⟩ := ha
  refine ⟨?_, ?_, ?_, ?_⟩
  · intro hv hl he
    simp [padAdded, h1, h2, h3, hv, hl, he]
  · intro hau hl he
    simp [padAdded, h1, h2, h3, hau, not_video_of_audio hau, hl, he]
  · intro ht hfail
    have hnv := not_video_of_text ht
    have hna := not_audio_of_text ht
    have hts : (textPre.isPrefixOf name || subtitlePre.isPrefixOf name) = true := by
      simp [ht]
    cases hmk : e.mkSubtitleTee
    · exact ⟨"failed to construct subtitle tee",
        by simp [padAdded, h1, h2, h3, hnv, hna, hts, hmk]⟩
    cases hadd : e.addSubtitleTee
    · exact ⟨"failed to add subtitle tee to pipeline",
        by simp [padAdded, h1, h2, h3, hnv, hna, hts, hmk, hadd]⟩
    cases hsrc : e.srcToSubtitleTee
    · exact ⟨"failed to link src pad to subtitle tee",
        by simp [padAdded, h1, h2, h3, hnv, hna, hts, hmk, hadd, hsrc]⟩
    cases hnew : e.subtitleNew
    · exact ⟨"SubtitleBranch::new failed",
        by simp [padAdded, h1, h2, h3, hnv, hna, hts, hmk, hadd, hsrc, hnew]⟩
    cases hba : e.subtitleAdd
    · exact ⟨"failed to add subtitle branch to pipeline",
        by simp [padAdded, h1, h2, h3, hnv, hna, hts, hmk, hadd, hsrc, hnew, hba]⟩
    rcases hfail with hf | hf | hf | hf | hf | ⟨msg, hf⟩
    · simp [hmk] at hf
    · simp [hadd] at hf
    · simp [hsrc] at hf
    · simp [hnew] at hf
    · simp [hba] at hf
    · exact ⟨msg,
        by simp [padAdded, h1, h2, h3, hnv, hna, hts, hmk, hadd, hsrc, hnew, hba, hf]⟩
  · intro hpan
    simp only [runCallbacks, hpan]

/-- Claim C7 witness: a failing video link panics the callback, and a
panicking callback ends the run before later inputs. -/
theorem c7_witness :
    padAdded (Alive.mk true true true) initialGraph
      (some [['v', 'i', 'd', 'e', 'o', '/', 'x']])
      { fullLinkEnv with videoLink := false } = .panicked videoLinkMsg :=
  (c7_dynamic_link_failure_fatal (Alive.mk true true true) initialGraph
    { fullLinkEnv with videoLink := false } ['v', 'i', 'd', 'e', 'o', '/', 'x'] []
    ⟨Alive.mk true true true, none, fullLinkEnv⟩ [] "m" ⟨rfl, rfl, rfl⟩).1
    (by decide) rfl rfl

/-- Claim C8: with every engine operation succeeding, `SubtitleBranch::link`
returns success having connected exactly the image-frame path (upstream tee,
queue, text overlay, internal tee, PNG queue, PNG encoder, PNG sink) plus the
dangling WebVTT queue, and no established link touches the WebVTT file
sink. -/
theorem c8_subtitle_link_omits_webvtt_sink :
    SubtitleBranch.link fullSubLinkEnv =
      .ok [(.teeArg, .queue), (.queue, .textOverlay), (.textOverlay, .subtitleTee),
           (.subtitleTee, .pngQueue), (.pngQueue, .pngEncoder), (.pngEncoder, .pngSink),
           (.subtitleTee, .webvttQueue)] ∧
    (([(.teeArg, .queue), (.queue, .textOverlay), (.textOverlay, .subtitleTee),
       (.subtitleTee, .pngQueue), (.pngQueue, .pngEncoder), (.pngEncoder, .pngSink),
       (.subtitleTee, .webvttQueue)] : List (SubElem × SubElem)).all
      (fun l => decide (l.1 ≠ SubElem.webvttSink) && decide (l.2 ≠ SubElem.webvttSink))) =
      true := by
  constructor
  · rfl
  · decide

/-- Claim C9: if any of the three weak references (tee, audio queue,
pipeline) fails to upgrade because the graph was torn down, the callback
returns immediately, leaving the graph untouched, with no classification or
link performed. -/
theorem c9_dead_weak_refs_no_op (a : Alive) (g : Graph) (caps : Option (List StrName))
    (e : LinkEnv) (h : a.tee = false ∨ a.audioQueue1 = false ∨ a.pipeline = false) :
    padAdded a g caps e = .earlyReturn g := by
  obtain ⟨t, q, p⟩ := a
  cases t <;> cases q <;> cases p <;> simp_all [padAdded]

/-- Claim C9 witness: a torn-down tee reference. -/
theorem c9_witness :
    (Alive.mk false true true).tee = false ∧
    padAdded (Alive.mk false true true) initialGraph none fullLinkEnv =
      .earlyReturn initialGraph :=
  ⟨rfl, c9_dead_weak_refs_no_op (Alive.mk false true true) initialGraph none fullLinkEnv
    (Or.inl rfl)⟩

/-- Claim C10: with all weak references live, a discovered pad with no
current caps, or caps with no first structure, makes the callback panic on
the corresponding `unwrap` before any classification or linking. -/
theorem c10_missing_caps_panic (a : Alive) (g : Graph) (e : LinkEnv)
    (h : a.tee = true ∧ a.audioQueue1 = true ∧ a.pipeline = true) :
    padAdded a g none e = .panicked capsUnwrapMsg ∧
    padAdded a g (some []) e = .panicked structureUnwrapMsg := by
  obtain ⟨h1, h2, h3⟩ := h
  constructor <;> simp [padAdded, h1, h2, h3]

/-- Claim C10 witness: an absent-caps pad under a live graph. -/
theorem c10_witness :
    padAdded (Alive.mk true true true) initialGraph none fullLinkEnv =
      .panicked capsUnwrapMsg :=
  (c10_missing_caps_panic (Alive.mk true true true) initialGraph fullLinkEnv
    ⟨rfl, rfl, rfl⟩).1

end Preparer
